import Mathlib

/-!
Shallow embedding of the Guardian secure-boot / TPM measurement engine
(`src/freebsd/src/kernel/secure_boot.c`, `secure_boot.h`, `tpm_driver.c`,
`tpm_driver.h`).

Machine bytes are modelled as `List Nat` (each element a byte value); the
SHA-512 primitive is an external OpenSSL collaborator, so it is passed as an
abstract function parameter `H : Bytes → Bytes`.  The hardware TPM operations
(`tpm_extend_pcr_internal`, `tpm_create_sealing_key`, `tpm_seal_data_internal`,
`tpm_check_rng_health`) are external device calls whose outcomes are supplied
by oracle environments.  Global mutable state (`tpm_state`, the measurement
log, the initialization flags) is threaded explicitly.
-/

set_option autoImplicit false

namespace Guardian

/-- Byte strings, one `Nat` per byte. -/
abbrev Bytes := List Nat

/-- `guardian_status_t` values used by the measurement engine.  The C macros
expand to distinct integers (`guardian_errors.h`, `secure_boot.h`,
`tpm_driver.h`); only their distinctness matters here, so they are modelled as
constructors of an inductive type. -/
inductive guardian_status where
  | success
  | error_invalid_param
  | error_state
  | error_security
  | error_overflow
  | error_integrity
  | tpm_device_error
  | error_invalid_version
  | error_invalid_pcr
  | error_invalid_measurement
  | error_sequence_invalid
  | error_signature_invalid
  | error_entropy_low
  deriving DecidableEq

open guardian_status

/- Constants from `tpm_driver.h` and `secure_boot.h`. -/

/-- `SHA512_DIGEST_LENGTH` (crypto/sha2.h). -/
def SHA512_DIGEST_LENGTH : Nat := 64

/-- `TPM_MAX_PCR_BANKS` (tpm_driver.h line 28). -/
def TPM_MAX_PCR_BANKS : Nat := 24

/-- `TPM_MAX_SEALED_DATA` (tpm_driver.h line 30). -/
def TPM_MAX_SEALED_DATA : Nat := 1024

/-- `GUARDIAN_MAX_MEASUREMENTS` (secure_boot.h line 29). -/
def GUARDIAN_MAX_MEASUREMENTS : Nat := 32

/-- `GUARDIAN_SECURE_BOOT_VERSION` (secure_boot.h line 28). -/
def GUARDIAN_SECURE_BOOT_VERSION : Nat := 0x0100

/-- `GUARDIAN_PCR_RUNTIME` (secure_boot.h line 38): highest assigned PCR. -/
def GUARDIAN_PCR_RUNTIME : Nat := 4

/-- `SECURE_BOOT_MIN_ENTROPY_BITS` (secure_boot.c line 23). -/
def SECURE_BOOT_MIN_ENTROPY_BITS : Nat := 256

/-- `guardian_measurement_t` (secure_boot.h lines 43-49). -/
structure guardian_measurement where
  pcr_index : Nat
  hash : Bytes
  signature : Bytes
  timestamp : Nat
  sequence_number : Nat
  deriving DecidableEq, Inhabited

/-- `guardian_measurement_log_t` (secure_boot.h lines 54-59).  `entries` models
the filled prefix `entries[0 .. count-1]` of the fixed 32-slot array; the log
starts zeroed with `count = 0` and is only mutated by `update_measurement_log`,
which writes at slot `count`, so the filled prefix is exactly this list. -/
structure guardian_measurement_log where
  count : Nat
  last_update : Nat
  log_hash : Bytes
  entries : List guardian_measurement
  deriving DecidableEq, Inhabited

/-- `guardian_boot_chain_t` (secure_boot.h lines 64-69).  The embedded audit
copy of the measurement log is not read by any verified operation and is
omitted. -/
structure guardian_boot_chain where
  version : Nat
  num_measurements : Nat
  measurements : List guardian_measurement
  deriving DecidableEq, Inhabited

/-- `guardian_pcr_bank_t` (tpm_driver.h lines 46-51). -/
structure guardian_pcr_bank where
  index : Nat
  value : Bytes
  last_extended : Nat
  integrity_hash : Bytes
  deriving DecidableEq, Inhabited

/-- `guardian_tpm_key_t` (tpm_driver.h lines 56-62). -/
structure guardian_tpm_key where
  handle : Nat
  key_type : Nat
  size : Nat
  policy_digest : Bytes
  creation_time : Nat
  deriving DecidableEq, Inhabited

/-- The mutable fields of the static `tpm_state` record (tpm_driver.c
lines 26-32) that the verified operations read or write. -/
structure tpm_state where
  initialized : Bool
  pcr_banks : List guardian_pcr_bank
  deriving DecidableEq, Inhabited

/-- Combined global state of `secure_boot.c`: the `g_secure_boot_initialized`
flag, the static `g_measurement_log`, and the TPM driver state the chain
verification mutates through `guardian_tpm_extend_pcr`. -/
structure SbState where
  sb_initialized : Bool
  log : guardian_measurement_log
  tpm : tpm_state
  deriving DecidableEq, Inhabited

/-- Oracle for the hardware TPM device: the outcome of
`tpm_extend_pcr_internal` (an external device call, not part of this tree) for
each `(pcr_index, digest)` pair, and the current time returned by
`time_second()` / `time(NULL)`. -/
structure TpmEnv where
  hwExtend : Nat → Bytes → guardian_status
  now : Nat

/- Validation macros from `secure_boot.h` lines 104-111. -/

/-- `SECURE_BOOT_VALIDATE_VERSION` (secure_boot.h line 104). -/
def SECURE_BOOT_VALIDATE_VERSION (ver : Nat) : Bool :=
  ver == GUARDIAN_SECURE_BOOT_VERSION

/-- `SECURE_BOOT_VALIDATE_PCR` (secure_boot.h line 107): the index is an
unsigned `uint32_t`, so the lower bound `idx >= GUARDIAN_PCR_BOOT_CHAIN`
(i.e. `idx >= 0`) always holds and only `idx <= GUARDIAN_PCR_RUNTIME`
remains. -/
def SECURE_BOOT_VALIDATE_PCR (idx : Nat) : Bool :=
  idx ≤ GUARDIAN_PCR_RUNTIME

/-- `SECURE_BOOT_VALIDATE_MEASUREMENT_COUNT` (secure_boot.h line 110). -/
def SECURE_BOOT_VALIDATE_MEASUREMENT_COUNT (count : Nat) : Bool :=
  0 < count && count ≤ GUARDIAN_MAX_MEASUREMENTS

/-- Little-endian byte serialization of a fixed-width machine integer, used to
model the raw-memory `SHA512_Update` calls over scalar struct fields. -/
def natToBytesLE (width n : Nat) : Bytes :=
  (List.range width).map fun i => n / 256 ^ i % 256

/-- The bytes hashed by `verify_measurement_integrity` (secure_boot.c
lines 254-258): the raw memory of `pcr_index` (4 bytes), `timestamp`
(8 bytes) and `sequence_number` (8 bytes). -/
def measurement_meta_bytes (pcr ts seq : Nat) : Bytes :=
  natToBytesLE 4 pcr ++ natToBytesLE 8 ts ++ natToBytesLE 8 seq

/-- Raw-memory serialization of a `guardian_measurement_t`, the unit over which
`update_measurement_log` hashes the log entries (padding is immaterial because
the hash is abstract). -/
def encode_measurement (m : guardian_measurement) : Bytes :=
  natToBytesLE 4 m.pcr_index ++ m.hash ++ m.signature ++
    natToBytesLE 8 m.timestamp ++ natToBytesLE 8 m.sequence_number

/-- `perform_timing_safe_compare` (secure_boot.c lines 291-300): or-accumulate
the xor of each byte pair; success iff the accumulator stays zero.  The C
callers always pass two buffers of the same fixed length. -/
def perform_timing_safe_compare (a b : Bytes) : guardian_status :=
  if (List.zipWith Nat.xor a b).foldl Nat.lor 0 = 0 then success else error_integrity

/-- `verify_measurement_integrity` (secure_boot.c lines 248-267): recompute
the digest over the measurement's metadata and compare it in constant time
against the declared `hash`. -/
def verify_measurement_integrity (H : Bytes → Bytes) (m : guardian_measurement) :
    guardian_status :=
  if perform_timing_safe_compare
      (H (measurement_meta_bytes m.pcr_index m.timestamp m.sequence_number))
      m.hash ≠ success then error_integrity
  else success

/-- `validate_pcr_integrity` (tpm_driver.c lines 268-272): its body in the
source is an elided stub that returns `GUARDIAN_STATUS_SUCCESS`
unconditionally. -/
def validate_pcr_integrity (_pcr_index : Nat) : guardian_status := success

/-- `tpm_extend_pcr` (tpm_driver.c lines 84-131).  The NULL-pointer half of the
`!measurement` check is subsumed by the empty-buffer case.  On hardware
success the addressed bank's `value` is overwritten with the digest,
`last_extended` is stamped, and `integrity_hash` is recomputed. -/
def tpm_extend_pcr (H : Bytes → Bytes) (env : TpmEnv) (st : tpm_state)
    (pcr_index : Nat) (measurement : Bytes) : guardian_status × tpm_state :=
  if measurement = [] ∨ TPM_MAX_PCR_BANKS ≤ pcr_index then
    (error_invalid_param, st)
  else if st.initialized = false then
    (tpm_device_error, st)
  else if validate_pcr_integrity pcr_index ≠ success then
    (validate_pcr_integrity pcr_index, st)
  else
    let hash := H measurement
    let s := env.hwExtend pcr_index hash
    if s ≠ success then (s, st)
    else
      let bank := st.pcr_banks.getD pcr_index default
      let bank' : guardian_pcr_bank :=
        { bank with value := hash, last_extended := env.now,
                    integrity_hash := H hash }
      (success, { st with pcr_banks := st.pcr_banks.set pcr_index bank' })

/-- `update_measurement_log` (secure_boot.c lines 269-289): reject when the log
is full (`GUARDIAN_ERROR_OVERFLOW`), otherwise copy the measurement into slot
`count`, bump `count`, stamp `last_update`, and rehash the filled prefix of the
entries array. -/
def update_measurement_log (H : Bytes → Bytes) (now : Nat)
    (log : guardian_measurement_log) (m : guardian_measurement) :
    guardian_status × guardian_measurement_log :=
  if GUARDIAN_MAX_MEASUREMENTS ≤ log.count then (error_overflow, log)
  else
    let entries' := log.entries ++ [m]
    let count' := log.count + 1
    let log_hash' := H ((entries'.take count').flatMap encode_measurement)
    (success,
      { count := count', last_update := now, log_hash := log_hash',
        entries := entries' })

/-- The per-measurement loop of `verify_boot_chain` (secure_boot.c
lines 107-136): PCR-range check, metadata-integrity check, PCR extension with
the measurement's `hash` as payload (via `guardian_tpm_extend_pcr`), then log
append; the first failure aborts with that status. -/
def verify_chain_loop (H : Bytes → Bytes) (env : TpmEnv)
    (ms : List guardian_measurement) (st : SbState) :
    guardian_status × SbState :=
  match ms with
  | [] => (success, st)
  | m :: rest =>
    if SECURE_BOOT_VALIDATE_PCR m.pcr_index = false then
      (error_invalid_pcr, st)
    else
      let s1 := verify_measurement_integrity H m
      if s1 ≠ success then (s1, st)
      else
        let r2 := tpm_extend_pcr H env st.tpm m.pcr_index m.hash
        if r2.1 ≠ success then (r2.1, { st with tpm := r2.2 })
        else
          let r3 := update_measurement_log H env.now st.log m
          if r3.1 ≠ success then (r3.1, { st with tpm := r2.2, log := r3.2 })
          else verify_chain_loop H env rest { st with tpm := r2.2, log := r3.2 }

/-- `verify_boot_chain` (secure_boot.c lines 93-139).  The NULL-chain half of
the first check is not modelled (the chain argument is a value here).  Note
that the version check and the measurement-count check share a single `if`
whose only return value is `GUARDIAN_ERROR_INVALID_VERSION` (lines 101-104). -/
def verify_boot_chain (H : Bytes → Bytes) (env : TpmEnv) (st : SbState)
    (chain : guardian_boot_chain) : guardian_status × SbState :=
  if st.sb_initialized = false then (error_invalid_param, st)
  else if SECURE_BOOT_VALIDATE_VERSION chain.version = false ∨
      SECURE_BOOT_VALIDATE_MEASUREMENT_COUNT chain.num_measurements = false then
    (error_invalid_version, st)
  else
    verify_chain_loop H env (chain.measurements.take chain.num_measurements) st

/-- Oracle for the external sealing collaborators of `tpm_seal_data`:
`tpm_create_sealing_key` (outcome, the key it writes on success, and whatever
residue a failed create leaves in the stack local) and
`tpm_seal_data_internal` (outcome and ciphertext). -/
structure SealEnv where
  createKeyStatus : guardian_status
  createdKey : guardian_tpm_key
  keyOnFailedCreate : guardian_tpm_key
  sealStatus : guardian_status
  sealedBytes : Bytes

/-- The all-zero `guardian_tpm_key_t`, the result of
`explicit_bzero(&sealing_key, sizeof(sealing_key))`. -/
def zero_key : guardian_tpm_key :=
  { handle := 0, key_type := 0, size := 0,
    policy_digest := List.replicate SHA512_DIGEST_LENGTH 0, creation_time := 0 }

/-- `tpm_seal_data` (tpm_driver.c lines 136-179).  The second component models
the final contents of the `sealing_key` stack local when the function returns:
`none` when control returned before the local was written, otherwise the value
left in it (the two `explicit_bzero` calls leave `zero_key`).  The third
component is the sealed output when the operation succeeds.  NULL output
pointers are not modelled. -/
def tpm_seal_data (env : SealEnv) (st : tpm_state) (data : Bytes) :
    guardian_status × Option guardian_tpm_key × Option Bytes :=
  if data = [] then (error_invalid_param, none, none)
  else if TPM_MAX_SEALED_DATA < data.length then (error_invalid_param, none, none)
  else if st.initialized = false then (tpm_device_error, none, none)
  else if env.createKeyStatus ≠ success then
    (env.createKeyStatus, some env.keyOnFailedCreate, none)
  else if env.sealStatus ≠ success then (env.sealStatus, some zero_key, none)
  else (success, some zero_key, some env.sealedBytes)

/-- Oracle for the external RNG collaborators of `tpm_get_random`:
`tpm_check_rng_health` (outcome and the entropy estimate it writes) and the
hardware generator inside `tpm_get_random_internal` (outcome and the bytes
left in the caller's buffer by that call). -/
structure RngEnv where
  healthStatus : guardian_status
  entropy_estimate : Nat
  deviceStatus : guardian_status
  deviceBytes : Bytes

/-- Modelled from the spec: `tpm_get_random_internal` is called by
`tpm_get_random` (tpm_driver.c line 246) with the entropy estimate but its
definition is not in the source tree.  Per spec §4.5 it must enforce the fixed
256-bit entropy floor, returning `ENTROPY_LOW` without writing to the buffer,
and otherwise request bytes from the hardware RNG, which may itself fail after
a partial write. -/
def tpm_get_random_internal (env : RngEnv) (buffer : Bytes)
    (entropy_estimate : Nat) : guardian_status × Bytes :=
  if entropy_estimate < SECURE_BOOT_MIN_ENTROPY_BITS then
    (error_entropy_low, buffer)
  else if env.deviceStatus ≠ success then (env.deviceStatus, env.deviceBytes)
  else (success, env.deviceBytes)

/-- `tpm_get_random` (tpm_driver.c lines 223-253).  The second component is
the final contents of the caller's buffer.  The `!buffer || !size` check is
modelled by the empty-buffer case (size travels as the buffer's length); on an
internal failure the source zeroes the buffer (`explicit_bzero(buffer, size)`)
before propagating the error. -/
def tpm_get_random (env : RngEnv) (st : tpm_state) (buffer : Bytes) :
    guardian_status × Bytes :=
  if buffer = [] then (error_invalid_param, buffer)
  else if st.initialized = false then (tpm_device_error, buffer)
  else if env.healthStatus ≠ success then (env.healthStatus, buffer)
  else
    let r := tpm_get_random_internal env buffer env.entropy_estimate
    if r.1 ≠ success then (r.1, List.replicate r.2.length 0)
    else (success, r.2)

/-! Concrete fixtures used to instantiate counterexamples and witnesses.  The
hash collaborator is abstract in all universal theorems; `testHash` is one
concrete instance of it for evaluation on explicit inputs. -/

/-- A concrete instance of the abstract digest collaborator: a fixed-width
checksum, total and executable, standing in for SHA-512 in concrete runs. -/
def testHash (b : Bytes) : Bytes :=
  List.replicate SHA512_DIGEST_LENGTH ((b.foldl (fun a x => a + x) 1) % 251)

/-- The all-zero digest. -/
def zero_digest : Bytes := List.replicate SHA512_DIGEST_LENGTH 0

/-- A zeroed PCR bank, the post-`init` contents of each table slot. -/
def bank_init : guardian_pcr_bank :=
  { index := 0, value := zero_digest, last_extended := 0,
    integrity_hash := zero_digest }

/-- TPM driver state after a successful `tpm_init`. -/
def tpm_ready : tpm_state :=
  { initialized := true,
    pcr_banks := List.replicate TPM_MAX_PCR_BANKS bank_init }

/-- The zeroed measurement log after `secure_boot_init`. -/
def log_empty : guardian_measurement_log :=
  { count := 0, last_update := 0, log_hash := zero_digest, entries := [] }

/-- Combined engine state after a successful initialization. -/
def sb_ready : SbState :=
  { sb_initialized := true, log := log_empty, tpm := tpm_ready }

/-- A healthy hardware device: every hardware extend succeeds. -/
def env_ok : TpmEnv := { hwExtend := fun _ _ => success, now := 100 }

/-- A measurement whose declared `hash` matches the recomputed metadata digest
under `testHash`, so it passes `verify_measurement_integrity`. -/
def meas_ok (pcr ts seq : Nat) : guardian_measurement :=
  { pcr_index := pcr, hash := testHash (measurement_meta_bytes pcr ts seq),
    signature := [], timestamp := ts, sequence_number := seq }

/-- The bytes of `b"kernel-v1"`. -/
def kernel_v1 : Bytes := [107, 101, 114, 110, 101, 108, 45, 118, 49]

/-- The bank table entry at an index (out-of-range reads give the default,
which never arises under the length-24 table invariant of the C array). -/
def bankAt (st : tpm_state) (i : Nat) : guardian_pcr_bank :=
  st.pcr_banks.getD i default

/-! General-purpose list helper lemmas. -/

theorem getD_set_self {α : Type} (l : List α) (i : Nat) (a d : α)
    (h : i < l.length) : (l.set i a).getD i d = a := by
  simp [List.getD, List.getElem?_set_eq_of_lt a h]

theorem getD_set_ne {α : Type} (l : List α) (i j : Nat) (a d : α)
    (h : i ≠ j) : (l.set i a).getD j d = l.getD j d := by
  simp [List.getD, List.getElem?_set_ne h]

/-- Anatomy of a successful `tpm_extend_pcr` call: status, the updated bank,
and the untouched rest of the table. -/
theorem tpm_extend_pcr_success_spec (H : Bytes → Bytes) (env : TpmEnv)
    (st : tpm_state) (pcr : Nat) (m : Bytes) (hinit : st.initialized = true)
    (hm : m ≠ []) (hpcr : pcr < TPM_MAX_PCR_BANKS)
    (hhw : env.hwExtend pcr (H m) = success) :
    tpm_extend_pcr H env st pcr m =
      (success,
        { st with
            pcr_banks :=
              st.pcr_banks.set pcr
                { st.pcr_banks.getD pcr default with
                    value := H m, last_extended := env.now,
                    integrity_hash := H (H m) } }) := by
  have h1 : ¬ (m = [] ∨ TPM_MAX_PCR_BANKS ≤ pcr) := by
    push_neg
    exact ⟨hm, by omega⟩
  simp [tpm_extend_pcr, h1, hinit, validate_pcr_integrity, hhw]

/-- Claim C5: on an initialized engine, a valid PCR index, a non-empty
measurement and hardware-extend success, `tpm_extend_pcr` returns success,
sets the addressed bank's `value` to `H(measurement)`, stamps `last_extended`
with the current time, and recomputes `integrity_hash` as the digest of the
new value. -/
theorem C5_extend_updates_bank (H : Bytes → Bytes) (env : TpmEnv)
    (st : tpm_state) (pcr : Nat) (m : Bytes) (hinit : st.initialized = true)
    (hm : m ≠ []) (hpcr : pcr < TPM_MAX_PCR_BANKS)
    (hlen : st.pcr_banks.length = TPM_MAX_PCR_BANKS)
    (hhw : env.hwExtend pcr (H m) = success) :
    (tpm_extend_pcr H env st pcr m).1 = success ∧
    (bankAt (tpm_extend_pcr H env st pcr m).2 pcr).value = H m ∧
    (bankAt (tpm_extend_pcr H env st pcr m).2 pcr).last_extended = env.now ∧
    (bankAt (tpm_extend_pcr H env st pcr m).2 pcr).integrity_hash = H (H m) := by
  rw [tpm_extend_pcr_success_spec H env st pcr m hinit hm hpcr hhw]
  have hlt : pcr < st.pcr_banks.length := by omega
  refine ⟨rfl, ?_, ?_, ?_⟩ <;>
    simp [bankAt, List.getD, List.getElem?_set_eq_of_lt _ hlt]

/-- Witness for C5 at a concrete input: extending bank 0 of a freshly
initialized engine with `b"kernel-v1"` on a healthy device. -/
theorem C5_extend_updates_bank_witness :
    (tpm_extend_pcr testHash env_ok tpm_ready 0 kernel_v1).1 = success ∧
    (bankAt (tpm_extend_pcr testHash env_ok tpm_ready 0 kernel_v1).2 0).value =
      testHash kernel_v1 ∧
    (bankAt (tpm_extend_pcr testHash env_ok tpm_ready 0 kernel_v1).2
        0).last_extended = env_ok.now ∧
    (bankAt (tpm_extend_pcr testHash env_ok tpm_ready 0 kernel_v1).2
        0).integrity_hash = testHash (testHash kernel_v1) :=
  C5_extend_updates_bank testHash env_ok tpm_ready 0 kernel_v1 rfl
    (by decide) (by decide) (by decide) rfl

/-- Claim C6: the measurement log's `count` never exceeds the fixed capacity
32; an append attempted at (or beyond) capacity returns `Overflow` and leaves
the log — count and entries — exactly as it was. -/
theorem C6_log_capacity (H : Bytes → Bytes) (now : Nat)
    (log : guardian_measurement_log) (m : guardian_measurement) :
    (GUARDIAN_MAX_MEASUREMENTS ≤ log.count →
      update_measurement_log H now log m = (error_overflow, log)) ∧
    (log.count ≤ GUARDIAN_MAX_MEASUREMENTS →
      (update_measurement_log H now log m).2.count ≤ GUARDIAN_MAX_MEASUREMENTS) := by
  constructor
  · intro h
    simp [update_measurement_log, h]
  · intro h
    by_cases hfull : GUARDIAN_MAX_MEASUREMENTS ≤ log.count
    · simp [update_measurement_log, hfull]
      omega
    · simp [update_measurement_log, hfull]
      omega

/-- Witness for C6 at a concrete input: a log holding 32 entries rejects the
33rd append with `Overflow` and is returned unchanged. -/
theorem C6_log_capacity_witness :
    update_measurement_log testHash 7
      { count := 32, last_update := 3, log_hash := zero_digest,
        entries := List.replicate 32 (meas_ok 0 1 1) } (meas_ok 1 2 2) =
      (error_overflow,
        { count := 32, last_update := 3, log_hash := zero_digest,
          entries := List.replicate 32 (meas_ok 0 1 1) }) :=
  (C6_log_capacity testHash 7 _ _).1 (by decide)

/-- The bank `value` written by a successful extend, as a standalone fact:
it is the digest of the measurement bytes, independent of the bank's previous
contents. -/
theorem tpm_extend_pcr_bank_value (H : Bytes → Bytes) (env : TpmEnv)
    (st : tpm_state) (pcr : Nat) (m : Bytes) (hinit : st.initialized = true)
    (hm : m ≠ []) (hpcr : pcr < TPM_MAX_PCR_BANKS)
    (hlen : st.pcr_banks.length = TPM_MAX_PCR_BANKS)
    (hhw : env.hwExtend pcr (H m) = success) :
    (bankAt (tpm_extend_pcr H env st pcr m).2 pcr).value = H m := by
  rw [tpm_extend_pcr_success_spec H env st pcr m hinit hm hpcr hhw]
  have hlt : pcr < st.pcr_banks.length := by omega
  simp [bankAt, List.getD, List.getElem?_set_eq_of_lt _ hlt]

/-- Counterexample for claim C4: after a successful init, extending bank 0
with `b"kernel-v1"` twice leaves bank 0 with exactly the SAME value as a
single extend — the in-memory chain does collapse, contradicting the claimed
non-idempotence. -/
theorem C4_counterexample :
    (bankAt (tpm_extend_pcr testHash env_ok
        (tpm_extend_pcr testHash env_ok tpm_ready 0 kernel_v1).2
        0 kernel_v1).2 0).value =
      (bankAt (tpm_extend_pcr testHash env_ok tpm_ready 0 kernel_v1).2 0).value := by
  decide

/-- Claim C4 as amended: `tpm_extend_pcr` overwrites the bank's value with the
digest of the measurement, so a second successful extend with the same bytes
succeeds and leaves the bank with the same value as the first — the in-memory
mirror does not chain (any chaining lives inside the hardware device). -/
theorem C4_extend_overwrite_idempotent (H : Bytes → Bytes) (env : TpmEnv)
    (st : tpm_state) (pcr : Nat) (m : Bytes) (hinit : st.initialized = true)
    (hm : m ≠ []) (hpcr : pcr < TPM_MAX_PCR_BANKS)
    (hlen : st.pcr_banks.length = TPM_MAX_PCR_BANKS)
    (hhw : env.hwExtend pcr (H m) = success) :
    (tpm_extend_pcr H env (tpm_extend_pcr H env st pcr m).2 pcr m).1 = success ∧
    (bankAt (tpm_extend_pcr H env (tpm_extend_pcr H env st pcr m).2 pcr m).2
        pcr).value =
      (bankAt (tpm_extend_pcr H env st pcr m).2 pcr).value := by
  have hspec := tpm_extend_pcr_success_spec H env st pcr m hinit hm hpcr hhw
  have hinit1 : (tpm_extend_pcr H env st pcr m).2.initialized = true := by
    rw [hspec]
    exact hinit
  have hlen1 : (tpm_extend_pcr H env st pcr m).2.pcr_banks.length =
      TPM_MAX_PCR_BANKS := by
    rw [hspec]
    simpa using hlen
  constructor
  · rw [tpm_extend_pcr_success_spec H env _ pcr m hinit1 hm hpcr hhw]
  · rw [tpm_extend_pcr_bank_value H env _ pcr m hinit1 hm hpcr hlen1 hhw,
        tpm_extend_pcr_bank_value H env st pcr m hinit hm hpcr hlen hhw]

/-- Witness for the amended C4 at a concrete input: the double extend of
bank 0 with `b"kernel-v1"`. -/
theorem C4_extend_overwrite_idempotent_witness :
    (tpm_extend_pcr testHash env_ok
        (tpm_extend_pcr testHash env_ok tpm_ready 0 kernel_v1).2
        0 kernel_v1).1 = success ∧
    (bankAt (tpm_extend_pcr testHash env_ok
        (tpm_extend_pcr testHash env_ok tpm_ready 0 kernel_v1).2
        0 kernel_v1).2 0).value =
      (bankAt (tpm_extend_pcr testHash env_ok tpm_ready 0 kernel_v1).2 0).value :=
  C4_extend_overwrite_idempotent testHash env_ok tpm_ready 0 kernel_v1 rfl
    (by decide) (by decide) (by decide) rfl

/-- Counterexample for claim C7: a chain with the correct protocol version but
`num_measurements = 0` is rejected with `INVALID_VERSION`, not
`INVALID_MEASUREMENT` — the two structural checks are not distinguished. -/
theorem C7_counterexample :
    (verify_boot_chain testHash env_ok sb_ready
        { version := GUARDIAN_SECURE_BOOT_VERSION, num_measurements := 0,
          measurements := [] }).1 = error_invalid_version ∧
    error_invalid_version ≠ error_invalid_measurement := by
  decide

/-- Claim C7 as amended: both structural checks of `verify_boot_chain` — a
wrong version, and a measurement count of zero or above capacity — return the
same `INVALID_VERSION` error (they share one `if`); `INVALID_MEASUREMENT` is
not produced by these checks. -/
theorem C7_structural_checks (H : Bytes → Bytes) (env : TpmEnv) (st : SbState)
    (chain : guardian_boot_chain) (hinit : st.sb_initialized = true)
    (hbad : SECURE_BOOT_VALIDATE_VERSION chain.version = false ∨
      SECURE_BOOT_VALIDATE_MEASUREMENT_COUNT chain.num_measurements = false) :
    verify_boot_chain H env st chain = (error_invalid_version, st) := by
  unfold verify_boot_chain
  rw [if_neg (by simp [hinit]), if_pos hbad]

/-- Witness for the amended C7 at a concrete input: a chain with a wrong
version byte. -/
theorem C7_structural_checks_witness :
    verify_boot_chain testHash env_ok sb_ready
      { version := 0x0200, num_measurements := 1, measurements := [] } =
      (error_invalid_version, sb_ready) :=
  C7_structural_checks testHash env_ok sb_ready
    { version := 0x0200, num_measurements := 1, measurements := [] } rfl
    (by decide)

/-- Claim C8: once the ephemeral sealing key has been created successfully,
every exit path of `tpm_seal_data` — sealing success or sealing failure —
leaves the key material zeroed before returning. -/
theorem C8_seal_key_zeroized (env : SealEnv) (st : tpm_state) (data : Bytes)
    (hd : data ≠ []) (hlen : data.length ≤ TPM_MAX_SEALED_DATA)
    (hinit : st.initialized = true) (hck : env.createKeyStatus = success) :
    (tpm_seal_data env st data).2.1 = some zero_key := by
  unfold tpm_seal_data
  rw [if_neg hd, if_neg (by omega), if_neg (by simp [hinit]),
    if_neg (by simp [hck])]
  split_ifs <;> rfl

/-- A sealing environment whose key creation succeeds and whose hardware seal
fails, leaving residue visible unless zeroed. -/
def env_seal_fail : SealEnv :=
  { createKeyStatus := success,
    createdKey := { handle := 7, key_type := 1, size := 4096,
                    policy_digest := List.replicate SHA512_DIGEST_LENGTH 5,
                    creation_time := 44 },
    keyOnFailedCreate := { handle := 9, key_type := 0, size := 0,
                           policy_digest := [], creation_time := 0 },
    sealStatus := error_security, sealedBytes := [] }

/-- Witness for C8 at a concrete input: key creation succeeds, the hardware
seal then fails, and the key local is still returned zeroed. -/
theorem C8_seal_key_zeroized_witness :
    (tpm_seal_data env_seal_fail tpm_ready kernel_v1).2.1 = some zero_key :=
  C8_seal_key_zeroized env_seal_fail tpm_ready kernel_v1 (by decide)
    (by decide) rfl rfl

/-- Claim C9: on an initialized engine with a non-empty buffer and a healthy
RNG health query, an entropy estimate below the 256-bit floor makes
`tpm_get_random` return `EntropyLow` with the caller's buffer zeroed; and more
generally, starting from an all-zero buffer, any failing outcome leaves the
returned buffer all-zero. -/
theorem C9_entropy_floor_and_zeroing (env : RngEnv) (st : tpm_state)
    (buffer : Bytes) :
    (buffer ≠ [] → st.initialized = true → env.healthStatus = success →
      env.entropy_estimate < SECURE_BOOT_MIN_ENTROPY_BITS →
      tpm_get_random env st buffer =
        (error_entropy_low, List.replicate buffer.length 0)) ∧
    ((∀ x ∈ buffer, x = 0) → (tpm_get_random env st buffer).1 ≠ success →
      ∀ x ∈ (tpm_get_random env st buffer).2, x = 0) := by
  constructor
  · intro hb hinit hhealth hent
    unfold tpm_get_random
    rw [if_neg hb, if_neg (by simp [hinit]), if_neg (by simp [hhealth])]
    unfold tpm_get_random_internal
    rw [if_pos hent]
    simp
  · intro hzero hfail
    revert hfail
    unfold tpm_get_random tpm_get_random_internal
    split_ifs <;> intro hfail <;>
      first
        | exact hzero
        | (intro x hx; exact (List.eq_of_mem_replicate hx))
        | simp_all

/-- An RNG environment reporting healthy hardware but only 128 bits of
entropy, below the 256-bit floor. -/
def env_entropy_low : RngEnv :=
  { healthStatus := success, entropy_estimate := 128,
    deviceStatus := success, deviceBytes := [1, 2, 3] }

/-- Witness for C9 at a concrete input: a 3-byte all-zero buffer on an
initialized engine with 128 bits of entropy. -/
theorem C9_entropy_floor_and_zeroing_witness :
    tpm_get_random env_entropy_low tpm_ready (List.replicate 3 0) =
      (error_entropy_low, List.replicate 3 0) ∧
    ∀ x ∈ (tpm_get_random env_entropy_low tpm_ready (List.replicate 3 0)).2,
      x = 0 := by
  have h := C9_entropy_floor_and_zeroing env_entropy_low tpm_ready
    (List.replicate 3 0)
  exact ⟨h.1 (by decide) rfl rfl (by decide), h.2 (by decide) (by decide)⟩

/-! Step lemmas for the `verify_boot_chain` measurement loop. -/

/-- A measurement with an out-of-range PCR index aborts the loop with
`INVALID_PCR`, leaving the state untouched. -/
theorem verify_chain_loop_cons_bad_pcr (H : Bytes → Bytes) (env : TpmEnv)
    (m : guardian_measurement) (rest : List guardian_measurement) (st : SbState)
    (h : SECURE_BOOT_VALIDATE_PCR m.pcr_index = false) :
    verify_chain_loop H env (m :: rest) st = (error_invalid_pcr, st) := by
  simp [verify_chain_loop, h]

/-- A measurement failing the metadata-integrity check aborts the loop with
`INTEGRITY`, leaving the state untouched. -/
theorem verify_chain_loop_cons_bad_integrity (H : Bytes → Bytes) (env : TpmEnv)
    (m : guardian_measurement) (rest : List guardian_measurement) (st : SbState)
    (hpcr : SECURE_BOOT_VALIDATE_PCR m.pcr_index = true)
    (hint : verify_measurement_integrity H m = error_integrity) :
    verify_chain_loop H env (m :: rest) st = (error_integrity, st) := by
  simp [verify_chain_loop, hpcr, hint]

/-- A measurement that passes all its checks advances the loop to the rest of
the chain over the extended-and-logged state. -/
theorem verify_chain_loop_cons_pass (H : Bytes → Bytes) (env : TpmEnv)
    (m : guardian_measurement) (rest : List guardian_measurement) (st : SbState)
    (hpcr : SECURE_BOOT_VALIDATE_PCR m.pcr_index = true)
    (hint : verify_measurement_integrity H m = success)
    (hext : (tpm_extend_pcr H env st.tpm m.pcr_index m.hash).1 = success)
    (hlog : (update_measurement_log H env.now st.log m).1 = success) :
    verify_chain_loop H env (m :: rest) st =
      verify_chain_loop H env rest
        { st with tpm := (tpm_extend_pcr H env st.tpm m.pcr_index m.hash).2,
                  log := (update_measurement_log H env.now st.log m).2 } := by
  simp [verify_chain_loop, hpcr, hint, hext, hlog]

/-- Components of a successful log append. -/
theorem update_measurement_log_success (H : Bytes → Bytes) (now : Nat)
    (log : guardian_measurement_log) (m : guardian_measurement)
    (h : log.count < GUARDIAN_MAX_MEASUREMENTS) :
    (update_measurement_log H now log m).1 = success ∧
    (update_measurement_log H now log m).2.entries = log.entries ++ [m] ∧
    (update_measurement_log H now log m).2.count = log.count + 1 := by
  simp [update_measurement_log, show ¬ GUARDIAN_MAX_MEASUREMENTS ≤ log.count by omega]

/-- A PCR index accepted by the boot-chain range check is within the TPM
driver's bank range. -/
theorem validate_pcr_lt_banks (idx : Nat)
    (h : SECURE_BOOT_VALIDATE_PCR idx = true) : idx < TPM_MAX_PCR_BANKS := by
  simp only [SECURE_BOOT_VALIDATE_PCR, GUARDIAN_PCR_RUNTIME,
    decide_eq_true_eq] at h
  simp only [TPM_MAX_PCR_BANKS]
  omega

/-- Claim C3: `verify_boot_chain` is fail-closed in order.  For a 3-measurement
chain whose first measurement passes every check and whose second fails the
metadata-integrity check (with a valid PCR index), the call returns
`INTEGRITY`, the log gains exactly the first measurement, the TPM state is
exactly the one-extend state, and the third measurement is never extended into
any bank nor appended to the log. -/
theorem C3_fail_closed (H : Bytes → Bytes) (env : TpmEnv) (st : SbState)
    (m1 m2 m3 : guardian_measurement) (chain : guardian_boot_chain)
    (hinit : st.sb_initialized = true) (htpm : st.tpm.initialized = true)
    (hv : chain.version = GUARDIAN_SECURE_BOOT_VERSION)
    (hn : chain.num_measurements = 3)
    (hms : chain.measurements.take chain.num_measurements = [m1, m2, m3])
    (hm1pcr : SECURE_BOOT_VALIDATE_PCR m1.pcr_index = true)
    (hm1int : verify_measurement_integrity H m1 = success)
    (hm1hash : m1.hash ≠ [])
    (hm1hw : env.hwExtend m1.pcr_index (H m1.hash) = success)
    (hroom : st.log.count < GUARDIAN_MAX_MEASUREMENTS)
    (hm2pcr : SECURE_BOOT_VALIDATE_PCR m2.pcr_index = true)
    (hm2int : verify_measurement_integrity H m2 = error_integrity)
    (hm3new : m3 ∉ st.log.entries) (hm31 : m3 ≠ m1) :
    (verify_boot_chain H env st chain).1 = error_integrity ∧
    (verify_boot_chain H env st chain).2.log.entries = st.log.entries ++ [m1] ∧
    (verify_boot_chain H env st chain).2.tpm =
      (tpm_extend_pcr H env st.tpm m1.pcr_index m1.hash).2 ∧
    m3 ∉ (verify_boot_chain H env st chain).2.log.entries := by
  have hext1 : (tpm_extend_pcr H env st.tpm m1.pcr_index m1.hash).1 = success := by
    rw [tpm_extend_pcr_success_spec H env st.tpm m1.pcr_index m1.hash htpm
      hm1hash (validate_pcr_lt_banks _ hm1pcr) hm1hw]
  have hlog1 := update_measurement_log_success H env.now st.log m1 hroom
  have hchain : verify_boot_chain H env st chain =
      (error_integrity,
        { st with tpm := (tpm_extend_pcr H env st.tpm m1.pcr_index m1.hash).2,
                  log := (update_measurement_log H env.now st.log m1).2 }) := by
    unfold verify_boot_chain
    rw [if_neg (by simp [hinit]),
      if_neg (by simp [hv, hn, SECURE_BOOT_VALIDATE_VERSION,
        SECURE_BOOT_VALIDATE_MEASUREMENT_COUNT, GUARDIAN_SECURE_BOOT_VERSION,
        GUARDIAN_MAX_MEASUREMENTS]),
      hms,
      verify_chain_loop_cons_pass H env m1 [m2, m3] st hm1pcr hm1int hext1
        hlog1.1,
      verify_chain_loop_cons_bad_integrity H env m2 [m3] _ hm2pcr hm2int]
  rw [hchain]
  refine ⟨rfl, hlog1.2.1, rfl, ?_⟩
  simp only [hlog1.2.1, List.mem_append, List.mem_singleton]
  rintro (h | h)
  · exact hm3new h
  · exact hm31 h

/-- First measurement of the concrete C3 chain: passes every check. -/
def m_c3_1 : guardian_measurement := meas_ok 0 10 1

/-- Second measurement of the concrete C3 chain: valid PCR index but a
corrupted `hash`, failing the metadata-integrity check. -/
def m_c3_2 : guardian_measurement :=
  { pcr_index := 1, hash := zero_digest, signature := [], timestamp := 11,
    sequence_number := 2 }

/-- Third measurement of the concrete C3 chain: well-formed but never
reached. -/
def m_c3_3 : guardian_measurement := meas_ok 2 12 3

/-- Concrete 3-measurement chain whose middle measurement is corrupted. -/
def chain_c3 : guardian_boot_chain :=
  { version := GUARDIAN_SECURE_BOOT_VERSION, num_measurements := 3,
    measurements := [m_c3_1, m_c3_2, m_c3_3] }

/-- Witness for C3 at a concrete input. -/
theorem C3_fail_closed_witness :
    (verify_boot_chain testHash env_ok sb_ready chain_c3).1 = error_integrity ∧
    (verify_boot_chain testHash env_ok sb_ready chain_c3).2.log.entries =
      sb_ready.log.entries ++ [m_c3_1] ∧
    (verify_boot_chain testHash env_ok sb_ready chain_c3).2.tpm =
      (tpm_extend_pcr testHash env_ok sb_ready.tpm m_c3_1.pcr_index
        m_c3_1.hash).2 ∧
    m_c3_3 ∉ (verify_boot_chain testHash env_ok sb_ready chain_c3).2.log.entries :=
  C3_fail_closed testHash env_ok sb_ready m_c3_1 m_c3_2 m_c3_3 chain_c3 rfl rfl
    rfl rfl (by decide) (by decide) (by decide) (by decide) rfl (by decide)
    (by decide) (by decide) (by decide) (by decide)

/-- First measurement of the concrete C1 chain: passes every check. -/
def m_c1_1 : guardian_measurement := meas_ok 0 20 1

/-- Second measurement of the concrete C1 chain: PCR index 9, outside the
assigned bank range 0..4. -/
def m_c1_2 : guardian_measurement := meas_ok 9 21 2

/-- Concrete 2-measurement chain whose second measurement has an out-of-range
PCR index. -/
def chain_c1 : guardian_boot_chain :=
  { version := GUARDIAN_SECURE_BOOT_VERSION, num_measurements := 2,
    measurements := [m_c1_1, m_c1_2] }

/-- Counterexample for claim C1: on this chain `verify_boot_chain` returns an
error, yet the measurement log is NOT left as it was — its count has grown
(the first measurement was committed before the failure). -/
theorem C1_counterexample :
    (verify_boot_chain testHash env_ok sb_ready chain_c1).1 ≠ success ∧
    (verify_boot_chain testHash env_ok sb_ready chain_c1).2.log.count ≠
      sb_ready.log.count := by
  decide

/-- Claim C1 as amended: `verify_boot_chain` commits log appends
measurement-by-measurement, so when verification fails at a later measurement
the earlier measurements that passed remain appended: here, with a passing
first measurement and a second measurement whose PCR index is out of range,
the call errors with `INVALID_PCR` but the log has gained the first
measurement (a partial state commit). -/
theorem C1_partial_commit (H : Bytes → Bytes) (env : TpmEnv) (st : SbState)
    (m1 m2 : guardian_measurement) (chain : guardian_boot_chain)
    (hinit : st.sb_initialized = true) (htpm : st.tpm.initialized = true)
    (hv : chain.version = GUARDIAN_SECURE_BOOT_VERSION)
    (hn : chain.num_measurements = 2)
    (hms : chain.measurements.take chain.num_measurements = [m1, m2])
    (hm1pcr : SECURE_BOOT_VALIDATE_PCR m1.pcr_index = true)
    (hm1int : verify_measurement_integrity H m1 = success)
    (hm1hash : m1.hash ≠ [])
    (hm1hw : env.hwExtend m1.pcr_index (H m1.hash) = success)
    (hroom : st.log.count < GUARDIAN_MAX_MEASUREMENTS)
    (hm2pcr : SECURE_BOOT_VALIDATE_PCR m2.pcr_index = false) :
    (verify_boot_chain H env st chain).1 = error_invalid_pcr ∧
    (verify_boot_chain H env st chain).1 ≠ success ∧
    (verify_boot_chain H env st chain).2.log.entries =
      st.log.entries ++ [m1] ∧
    (verify_boot_chain H env st chain).2.log.count = st.log.count + 1 := by
  have hext1 : (tpm_extend_pcr H env st.tpm m1.pcr_index m1.hash).1 = success := by
    rw [tpm_extend_pcr_success_spec H env st.tpm m1.pcr_index m1.hash htpm
      hm1hash (validate_pcr_lt_banks _ hm1pcr) hm1hw]
  have hlog1 := update_measurement_log_success H env.now st.log m1 hroom
  have hchain : verify_boot_chain H env st chain =
      (error_invalid_pcr,
        { st with tpm := (tpm_extend_pcr H env st.tpm m1.pcr_index m1.hash).2,
                  log := (update_measurement_log H env.now st.log m1).2 }) := by
    unfold verify_boot_chain
    rw [if_neg (by simp [hinit]),
      if_neg (by simp [hv, hn, SECURE_BOOT_VALIDATE_VERSION,
        SECURE_BOOT_VALIDATE_MEASUREMENT_COUNT, GUARDIAN_SECURE_BOOT_VERSION,
        GUARDIAN_MAX_MEASUREMENTS]),
      hms,
      verify_chain_loop_cons_pass H env m1 [m2] st hm1pcr hm1int hext1
        hlog1.1,
      verify_chain_loop_cons_bad_pcr H env m2 [] _ hm2pcr]
  rw [hchain]
  exact ⟨rfl, by simp, hlog1.2.1, hlog1.2.2⟩

/-- Witness for the amended C1 at the concrete chain of the counterexample. -/
theorem C1_partial_commit_witness :
    (verify_boot_chain testHash env_ok sb_ready chain_c1).1 =
      error_invalid_pcr ∧
    (verify_boot_chain testHash env_ok sb_ready chain_c1).1 ≠ success ∧
    (verify_boot_chain testHash env_ok sb_ready chain_c1).2.log.entries =
      sb_ready.log.entries ++ [m_c1_1] ∧
    (verify_boot_chain testHash env_ok sb_ready chain_c1).2.log.count =
      sb_ready.log.count + 1 :=
  C1_partial_commit testHash env_ok sb_ready m_c1_1 m_c1_2 chain_c1 rfl rfl rfl
    rfl (by decide) (by decide) (by decide) (by decide) rfl (by decide)
    (by decide)

/-- A measurement passing the PCR and integrity checks whose PCR extension
fails aborts the loop with the extension's status, the TPM state being
whatever the extension left. -/
theorem verify_chain_loop_cons_fail_extend (H : Bytes → Bytes) (env : TpmEnv)
    (m : guardian_measurement) (rest : List guardian_measurement) (st : SbState)
    (hpcr : SECURE_BOOT_VALIDATE_PCR m.pcr_index = true)
    (hint : verify_measurement_integrity H m = success)
    (hext : (tpm_extend_pcr H env st.tpm m.pcr_index m.hash).1 ≠ success) :
    verify_chain_loop H env (m :: rest) st =
      ((tpm_extend_pcr H env st.tpm m.pcr_index m.hash).1,
        { st with tpm := (tpm_extend_pcr H env st.tpm m.pcr_index m.hash).2 }) := by
  simp [verify_chain_loop, hpcr, hint, hext]

/-- A measurement passing PCR check, integrity check and extension whose log
append fails aborts the loop with the append's status. -/
theorem verify_chain_loop_cons_fail_log (H : Bytes → Bytes) (env : TpmEnv)
    (m : guardian_measurement) (rest : List guardian_measurement) (st : SbState)
    (hpcr : SECURE_BOOT_VALIDATE_PCR m.pcr_index = true)
    (hint : verify_measurement_integrity H m = success)
    (hext : (tpm_extend_pcr H env st.tpm m.pcr_index m.hash).1 = success)
    (hlog : (update_measurement_log H env.now st.log m).1 ≠ success) :
    verify_chain_loop H env (m :: rest) st =
      ((update_measurement_log H env.now st.log m).1,
        { st with tpm := (tpm_extend_pcr H env st.tpm m.pcr_index m.hash).2,
                  log := (update_measurement_log H env.now st.log m).2 }) := by
  simp [verify_chain_loop, hpcr, hint, hext, hlog]

/-- The two possible outcomes of the metadata-integrity check. -/
theorem verify_measurement_integrity_cases (H : Bytes → Bytes)
    (m : guardian_measurement) :
    verify_measurement_integrity H m = success ∨
    verify_measurement_integrity H m = error_integrity := by
  unfold verify_measurement_integrity
  split_ifs <;> simp_all

/-- The possible statuses of `tpm_extend_pcr`: parameter rejection, missing
initialization, the hardware device's own reply, or success. -/
theorem tpm_extend_pcr_status_cases (H : Bytes → Bytes) (env : TpmEnv)
    (st : tpm_state) (pcr : Nat) (m : Bytes) :
    (tpm_extend_pcr H env st pcr m).1 = success ∨
    (tpm_extend_pcr H env st pcr m).1 = error_invalid_param ∨
    (tpm_extend_pcr H env st pcr m).1 = tpm_device_error ∨
    (tpm_extend_pcr H env st pcr m).1 = env.hwExtend pcr (H m) := by
  unfold tpm_extend_pcr validate_pcr_integrity
  by_cases h : env.hwExtend pcr (H m) = success <;> split_ifs <;> simp_all

/-- The two possible outcomes of a log append. -/
theorem update_measurement_log_status_cases (H : Bytes → Bytes) (now : Nat)
    (log : guardian_measurement_log) (m : guardian_measurement) :
    (update_measurement_log H now log m).1 = success ∨
    (update_measurement_log H now log m).1 = error_overflow := by
  unfold update_measurement_log
  split_ifs <;> simp_all

/-- The measurement loop never produces `SEQUENCE_INVALID` (no sequence check
exists in it), provided the hardware device itself never replies with that
status. -/
theorem verify_chain_loop_no_sequence_check (H : Bytes → Bytes) (env : TpmEnv)
    (hhw : ∀ i d, env.hwExtend i d ≠ error_sequence_invalid) :
    ∀ (ms : List guardian_measurement) (st : SbState),
      (verify_chain_loop H env ms st).1 ≠ error_sequence_invalid := by
  intro ms
  induction ms with
  | nil =>
    intro st
    simp [verify_chain_loop]
  | cons m rest ih =>
    intro st
    by_cases h1 : SECURE_BOOT_VALIDATE_PCR m.pcr_index = false
    · rw [verify_chain_loop_cons_bad_pcr H env m rest st h1]
      simp
    · replace h1 : SECURE_BOOT_VALIDATE_PCR m.pcr_index = true := by
        simpa using h1
      rcases verify_measurement_integrity_cases H m with h2 | h2
      · by_cases h3 : (tpm_extend_pcr H env st.tpm m.pcr_index m.hash).1 = success
        · rcases update_measurement_log_status_cases H env.now st.log m with h4 | h4
          · rw [verify_chain_loop_cons_pass H env m rest st h1 h2 h3 h4]
            exact ih _
          · rw [verify_chain_loop_cons_fail_log H env m rest st h1 h2 h3
              (by simp [h4])]
            simp [h4]
        · rw [verify_chain_loop_cons_fail_extend H env m rest st h1 h2 h3]
          rcases tpm_extend_pcr_status_cases H env st.tpm m.pcr_index m.hash
            with h | h | h | h
          · exact absurd h h3
          · simp [h]
          · simp [h]
          · simpa [h] using hhw m.pcr_index (H m.hash)
      · rw [verify_chain_loop_cons_bad_integrity H env m rest st h1 h2]
        simp

/-- Counterexample for claim C2: a chain whose two measurements carry the SAME
sequence number (not strictly increasing) passes `verify_boot_chain` with
success rather than being rejected with `SEQUENCE_INVALID`. -/
theorem C2_counterexample :
    (meas_ok 1 11 5).sequence_number ≤ (meas_ok 0 10 5).sequence_number ∧
    (verify_boot_chain testHash env_ok sb_ready
        { version := GUARDIAN_SECURE_BOOT_VERSION, num_measurements := 2,
          measurements := [meas_ok 0 10 5, meas_ok 1 11 5] }).1 = success ∧
    success ≠ error_sequence_invalid := by
  decide

/-- Claim C2 as amended: `verify_boot_chain` contains no sequence-number
check at all — whenever the hardware device never replies with
`SEQUENCE_INVALID`, no chain whatsoever (in particular none with
non-increasing sequence numbers) is rejected with `SEQUENCE_INVALID`. -/
theorem C2_no_sequence_check (H : Bytes → Bytes) (env : TpmEnv)
    (hhw : ∀ i d, env.hwExtend i d ≠ error_sequence_invalid) (st : SbState)
    (chain : guardian_boot_chain) :
    (verify_boot_chain H env st chain).1 ≠ error_sequence_invalid := by
  unfold verify_boot_chain
  split_ifs with h1 h2
  · simp
  · simp
  · exact verify_chain_loop_no_sequence_check H env hhw _ st

/-- Witness for the amended C2 at a concrete input: the repeated-sequence
chain of the counterexample on a healthy device. -/
theorem C2_no_sequence_check_witness :
    (verify_boot_chain testHash env_ok sb_ready
        { version := GUARDIAN_SECURE_BOOT_VERSION, num_measurements := 2,
          measurements := [meas_ok 0 10 5, meas_ok 1 11 5] }).1 ≠
      error_sequence_invalid :=
  C2_no_sequence_check testHash env_ok (fun i d => by simp [env_ok]) sb_ready
    { version := GUARDIAN_SECURE_BOOT_VERSION, num_measurements := 2,
      measurements := [meas_ok 0 10 5, meas_ok 1 11 5] }

/-- A chain containing a measurement with an out-of-range PCR index never
verifies: the loop aborts at or before that measurement. -/
theorem verify_chain_loop_bad_pcr_rejects (H : Bytes → Bytes) (env : TpmEnv) :
    ∀ (ms : List guardian_measurement) (st : SbState)
      (m : guardian_measurement), m ∈ ms →
      SECURE_BOOT_VALIDATE_PCR m.pcr_index = false →
      (verify_chain_loop H env ms st).1 ≠ success := by
  intro ms
  induction ms with
  | nil =>
    intro st m hm
    exact absurd hm (List.not_mem_nil m)
  | cons m0 rest ih =>
    intro st m hm hbad
    by_cases h1 : SECURE_BOOT_VALIDATE_PCR m0.pcr_index = false
    · rw [verify_chain_loop_cons_bad_pcr H env m0 rest st h1]
      simp
    · replace h1 : SECURE_BOOT_VALIDATE_PCR m0.pcr_index = true := by
        simpa using h1
      have hmem : m ∈ rest := by
        rcases List.mem_cons.mp hm with h | h
        · rw [h] at hbad
          rw [hbad] at h1
          exact absurd h1 (by simp)
        · exact h
      rcases verify_measurement_integrity_cases H m0 with h2 | h2
      · by_cases h3 : (tpm_extend_pcr H env st.tpm m0.pcr_index m0.hash).1 = success
        · rcases update_measurement_log_status_cases H env.now st.log m0 with h4 | h4
          · rw [verify_chain_loop_cons_pass H env m0 rest st h1 h2 h3 h4]
            exact ih _ m hmem hbad
          · rw [verify_chain_loop_cons_fail_log H env m0 rest st h1 h2 h3
              (by simp [h4])]
            simp [h4]
        · rw [verify_chain_loop_cons_fail_extend H env m0 rest st h1 h2 h3]
          exact h3
      · rw [verify_chain_loop_cons_bad_integrity H env m0 rest st h1 h2]
        simp

/-- Claim C10: the two extend interfaces enforce different PCR ranges.  Any
boot chain containing a measurement whose PCR index fails the 0..4 range check
is rejected by `verify_boot_chain` (it never returns success), index 5 in
particular fails that check, while the direct `tpm_extend_pcr` accepts any
index below 24 — so a direct extend at index 5 succeeds on an initialized
engine with a healthy device. -/
theorem C10_pcr_ranges :
    (∀ (H : Bytes → Bytes) (env : TpmEnv) (st : SbState)
        (chain : guardian_boot_chain) (m : guardian_measurement),
        m ∈ chain.measurements.take chain.num_measurements →
        SECURE_BOOT_VALIDATE_PCR m.pcr_index = false →
        (verify_boot_chain H env st chain).1 ≠ success) ∧
    SECURE_BOOT_VALIDATE_PCR 5 = false ∧
    (∀ (H : Bytes → Bytes) (env : TpmEnv) (st : tpm_state) (m : Bytes),
        st.initialized = true → m ≠ [] → env.hwExtend 5 (H m) = success →
        (tpm_extend_pcr H env st 5 m).1 = success) := by
  refine ⟨?_, by decide, ?_⟩
  · intro H env st chain m hm hbad
    unfold verify_boot_chain
    split_ifs with h1 h2
    · simp
    · simp
    · exact verify_chain_loop_bad_pcr_rejects H env _ st m hm hbad
  · intro H env st m hinit hm hhw
    rw [tpm_extend_pcr_success_spec H env st 5 m hinit hm (by decide) hhw]

/-- Witness for C10 at concrete inputs: a 1-measurement chain at PCR index 5
is rejected, while the direct extend at index 5 succeeds. -/
theorem C10_pcr_ranges_witness :
    (verify_boot_chain testHash env_ok sb_ready
        { version := GUARDIAN_SECURE_BOOT_VERSION, num_measurements := 1,
          measurements := [meas_ok 5 20 1] }).1 ≠ success ∧
    (tpm_extend_pcr testHash env_ok tpm_ready 5 kernel_v1).1 = success :=
  ⟨C10_pcr_ranges.1 testHash env_ok sb_ready
      { version := GUARDIAN_SECURE_BOOT_VERSION, num_measurements := 1,
        measurements := [meas_ok 5 20 1] } (meas_ok 5 20 1) (by decide)
      (by decide),
   C10_pcr_ranges.2.2 testHash env_ok tpm_ready kernel_v1 rfl (by decide) rfl⟩

end Guardian
